import Mathlib

/-!
Verification of the SMS-to-transaction extraction engine of
`momo-sms-analytics` (`src/app/parse_xml.py`), shallowly embedded in Lean.

The Python code scans free-text SMS bodies with ordered lists of regular
expressions via `re.search` and normalizes captured substrings with
`Decimal`.  We embed the exact regular expressions used by the source as a
small backtracking matcher whose alternative order coincides with Python's
(leftmost start position wins; at a given start, greedy/lazy preference
order), and embed each extractor's pattern list and control flow verbatim.
-/

/-- Character classes occurring in the source's regular expressions.
`litCI` is a literal compared case-insensitively (the amount/fee/balance
pattern searches pass `re.IGNORECASE`); `lit` is a case-sensitive literal
(the transaction-id patterns are searched without flags).  `anyNoLF` is
`.` (DOTALL off), `space` is `\s` (ASCII range), `digit` is `\d` (ASCII),
`alphaSpace` is the class `[A-Za-z\s]`. -/
inductive CharCls
  | digit
  | space
  | alphaSpace
  | anyNoLF
  | lit (c : Char)
  | litCI (c : Char)

/-- Python `\s` on the ASCII range. -/
def pySpace (c : Char) : Bool :=
  c = ' ' || c = '\t' || c = '\n' || c = '\r' || c = '\x0b' || c = '\x0c'

/-- Whether a character belongs to a class. -/
def CharCls.matches : CharCls → Char → Bool
  | .digit, c => c.isDigit
  | .space, c => pySpace c
  | .alphaSpace, c => (('A' ≤ c && c ≤ 'Z') || ('a' ≤ c && c ≤ 'z')) || pySpace c
  | .anyNoLF, c => c ≠ '\n'
  | .lit a, c => c = a
  | .litCI a, c => c.toLower = a.toLower

/-- Abstract syntax of the regular expressions the source uses: single
characters, concatenation, ordered alternation, greedy star, lazy star
(`*?`), and the single capturing group each pattern contains. -/
inductive Regex
  | eps
  | cls (k : CharCls)
  | seq (a b : Regex)
  | alt (a b : Regex)
  | star (r : Regex)
  | lstar (r : Regex)
  | grp (r : Regex)

/-- Combine the capture of two sequenced subexpression matches (each source
pattern has exactly one group, so at most one side is `some`). -/
def mergeCap : Option (List Char) → Option (List Char) → Option (List Char)
  | some g, _ => some g
  | none, g => g

/-- Greedy star over a subpattern splitter `f`: more iterations are
preferred, and an iteration must consume at least one character (every
starred subpattern in the source consumes on each iteration, so this
pruning is faithful and makes a fuel of `s.length + 1` always
sufficient). -/
def starSplits (f : List Char → List (List Char × Option (List Char))) :
    Nat → List Char → List (List Char × Option (List Char))
  | 0, s => [(s, none)]
  | n + 1, s =>
    (((f s).filter (fun p => decide (p.1.length < s.length))).flatMap
      (fun p => (starSplits f n p.1).map
        (fun q => (q.1, mergeCap p.2 q.2)))) ++ [(s, none)]

/-- Lazy star (`*?`) over a subpattern splitter `f`: fewer iterations are
preferred. -/
def lstarSplits (f : List Char → List (List Char × Option (List Char))) :
    Nat → List Char → List (List Char × Option (List Char))
  | 0, s => [(s, none)]
  | n + 1, s =>
    (s, none) ::
      ((f s).filter (fun p => decide (p.1.length < s.length))).flatMap
        (fun p => (lstarSplits f n p.1).map
          (fun q => (q.1, mergeCap p.2 q.2)))

/-- All ways a regex can match a prefix of `s`, as (remaining suffix,
captured group-1 text) pairs, listed in Python's backtracking preference
order: greedy stars try more iterations first, lazy stars fewer, and
`alt a b` tries `a` before `b`. -/
def msplits : Regex → List Char → List (List Char × Option (List Char))
  | .eps, s => [(s, none)]
  | .cls _, [] => []
  | .cls k, c :: rest => if k.matches c then [(rest, none)] else []
  | .seq a b, s =>
    (msplits a s).flatMap (fun p =>
      (msplits b p.1).map (fun q => (q.1, mergeCap p.2 q.2)))
  | .alt a b, s => msplits a s ++ msplits b s
  | .grp r, s =>
    (msplits r s).map (fun p => (p.1, some (s.take (s.length - p.1.length))))
  | .star r, s => starSplits (msplits r) (s.length + 1) s
  | .lstar r, s => lstarSplits (msplits r) (s.length + 1) s

/-- Python `re.search(...).group(1)`: try each start position left to
right; at the first position where the pattern matches, return the
backtracking-preferred match's group-1 capture. -/
def searchG1 (r : Regex) : List Char → Option (List Char)
  | [] =>
    match msplits r [] with
    | p :: _ => some (p.2.getD [])
    | [] => none
  | c :: t =>
    match msplits r (c :: t) with
    | p :: _ => some (p.2.getD [])
    | [] => searchG1 r t

/-- Fold the regexes of a list into their concatenation. -/
def rseq (l : List Regex) : Regex := l.foldr .seq .eps

/-- A literal string, matched case-insensitively. -/
def rlitCI (s : String) : Regex := rseq (s.data.map (fun c => .cls (.litCI c)))

/-- A literal string, matched case-sensitively. -/
def rlit (s : String) : Regex := rseq (s.data.map (fun c => .cls (.lit c)))

/-- The class `\d`. -/
def rd : Regex := .cls .digit

/-- The class `\s`. -/
def rws : Regex := .cls .space

/-- Greedy `r?`. -/
def ropt (r : Regex) : Regex := .alt r .eps

/-- Greedy `r+`. -/
def rplus (r : Regex) : Regex := .seq r (.star r)

/-- Lazy `r+?`. -/
def rlazyplus (r : Regex) : Regex := .seq r (.lstar r)

/-- `\d{1,3}`, greedy (three digits preferred, then two, then one). -/
def d13 : Regex := .seq rd (ropt (.seq rd (ropt rd)))

/-- `(?:,\d{3})*`. -/
def commaGroups : Regex := .star (rseq [.cls (.lit ','), rd, rd, rd])

/-- `(?:\.\d+)?`. -/
def fracPart : Regex := ropt (.seq (.cls (.lit '.')) (rplus rd))

/-- `\d{1,3}(?:,\d{3})*(?:\.\d+)?` — a comma-grouped number. -/
def numComma : Regex := rseq [d13, commaGroups, fracPart]

/-- `\d+(?:\.\d+)?` — a plain number. -/
def numPlain : Regex := .seq (rplus rd) fracPart

/-- Amount pattern `(\d{1,3}(?:,\d{3})*(?:\.\d+)?)\s*RWF`. -/
def amt_p1 : Regex := rseq [.grp numComma, .star rws, rlitCI "RWF"]

/-- Amount pattern `RWF\s*(\d{1,3}(?:,\d{3})*(?:\.\d+)?)`. -/
def amt_p2 : Regex := rseq [rlitCI "RWF", .star rws, .grp numComma]

/-- Amount pattern `(\d+(?:\.\d+)?)\s*RWF`. -/
def amt_p3 : Regex := rseq [.grp numPlain, .star rws, rlitCI "RWF"]

/-- Amount pattern `payment of (\d{1,3}(?:,\d{3})*(?:\.\d+)?)\s*RWF`. -/
def amt_p4 : Regex := rseq [rlitCI "payment of ", .grp numComma, .star rws, rlitCI "RWF"]

/-- Amount pattern `received (\d{1,3}(?:,\d{3})*(?:\.\d+)?)\s*RWF`. -/
def amt_p5 : Regex := rseq [rlitCI "received ", .grp numComma, .star rws, rlitCI "RWF"]

/-- Amount pattern `deposit of (\d{1,3}(?:,\d{3})*(?:\.\d+)?)\s*RWF`. -/
def amt_p6 : Regex := rseq [rlitCI "deposit of ", .grp numComma, .star rws, rlitCI "RWF"]

/-- Amount pattern `transferred (\d{1,3}(?:,\d{3})*(?:\.\d+)?)\s*RWF`. -/
def amt_p7 : Regex := rseq [rlitCI "transferred ", .grp numComma, .star rws, rlitCI "RWF"]

/-- The ordered pattern list of `extract_amount`, exactly as in the source:
the generic patterns (`N RWF`, `RWF N`) come first, the contextual ones
(`payment of`, `received`, `deposit of`, `transferred`) after. -/
def amount_patterns : List Regex :=
  [amt_p1, amt_p2, amt_p3, amt_p4, amt_p5, amt_p6, amt_p7]

/-- Fee pattern `Fee was:\s*(\d+(?:\.\d+)?)\s*RWF`. -/
def fee_p1 : Regex := rseq [rlitCI "Fee was:", .star rws, .grp numPlain, .star rws, rlitCI "RWF"]

/-- Fee pattern `Fee was (\d+(?:\.\d+)?)\s*RWF`. -/
def fee_p2 : Regex := rseq [rlitCI "Fee was ", .grp numPlain, .star rws, rlitCI "RWF"]

/-- Fee pattern `Fee paid:\s*(\d+(?:\.\d+)?)\s*RWF`. -/
def fee_p3 : Regex := rseq [rlitCI "Fee paid:", .star rws, .grp numPlain, .star rws, rlitCI "RWF"]

/-- The ordered pattern list of `extract_fee`. -/
def fee_patterns : List Regex := [fee_p1, fee_p2, fee_p3]

/-- Balance pattern `new balance:\s*(\d{1,3}(?:,\d{3})*(?:\.\d+)?)\s*RWF`. -/
def bal_p1 : Regex := rseq [rlitCI "new balance:", .star rws, .grp numComma, .star rws, rlitCI "RWF"]

/-- Balance pattern `NEW BALANCE\s*:\s*(\d{1,3}(?:,\d{3})*(?:\.\d+)?)\s*RWF`. -/
def bal_p2 : Regex :=
  rseq [rlitCI "NEW BALANCE", .star rws, rlitCI ":", .star rws, .grp numComma, .star rws, rlitCI "RWF"]

/-- Balance pattern `balance:\s*(\d{1,3}(?:,\d{3})*(?:\.\d+)?)\s*RWF`. -/
def bal_p3 : Regex := rseq [rlitCI "balance:", .star rws, .grp numComma, .star rws, rlitCI "RWF"]

/-- Balance pattern `Your new balance\s*:\s*(\d{1,3}(?:,\d{3})*(?:\.\d+)?)\s*RWF`. -/
def bal_p4 : Regex :=
  rseq [rlitCI "Your new balance", .star rws, rlitCI ":", .star rws, .grp numComma, .star rws, rlitCI "RWF"]

/-- The ordered pattern list of `extract_balance`. -/
def balance_patterns : List Regex := [bal_p1, bal_p2, bal_p3, bal_p4]

/-- Transaction-id pattern `Transaction Id:\s*(\d+)` (case-sensitive). -/
def tid_p1 : Regex := rseq [rlit "Transaction Id:", .star rws, .grp (rplus rd)]

/-- Transaction-id pattern `Financial Transaction Id:\s*(\d+)`. -/
def tid_p2 : Regex := rseq [rlit "Financial Transaction Id:", .star rws, .grp (rplus rd)]

/-- Transaction-id pattern `TxId:\s*(\d+)`. -/
def tid_p3 : Regex := rseq [rlit "TxId:", .star rws, .grp (rplus rd)]

/-- Transaction-id pattern `External Transaction Id:\s*(\d+)`. -/
def tid_p4 : Regex := rseq [rlit "External Transaction Id:", .star rws, .grp (rplus rd)]

/-- Transaction-id pattern `Id:\s*(\d+)` — the bare fallback. -/
def tid_p5 : Regex := rseq [rlit "Id:", .star rws, .grp (rplus rd)]

/-- The ordered pattern list of `extract_transaction_id`. -/
def tid_patterns : List Regex := [tid_p1, tid_p2, tid_p3, tid_p4, tid_p5]

/-- Numeric value of a digit string (how Python's `int`/`Decimal` read an
unsigned integer literal). -/
def digitsVal (cs : List Char) : Nat :=
  cs.foldl (fun a c => 10 * a + (c.toNat - 48)) 0

/-- `str.replace(",", "")` on the captured substring. -/
def stripCommas (cs : List Char) : List Char :=
  cs.filter (fun c => decide (c ≠ ','))

/-- Python `Decimal(s)` on the strings the extractors can capture
(`\d+`, `\d+.\d+`, `\d+.`, `.\d+`): an unsigned fixed-point literal.  On
anything else (no digits, stray characters) the constructor raises
`InvalidOperation`, modelled as `none`; signs, exponents and special
values never reach it from these call sites and are not modelled. -/
def decimalParse (cs : List Char) : Option ℚ :=
  let ip := cs.takeWhile Char.isDigit
  let rest := cs.dropWhile Char.isDigit
  match rest with
  | [] => if ip.isEmpty then none else some (digitsVal ip : ℚ)
  | '.' :: fp =>
    if fp.all Char.isDigit && (!ip.isEmpty || !fp.isEmpty) then
      some ((digitsVal ip : ℚ) + (digitsVal fp : ℚ) / (10 : ℚ) ^ fp.length)
    else none
  | _ => none

/-- The `for pattern in amount_patterns` loop of `extract_amount`: on a
match, strip commas and parse; a parse failure falls through to the next
pattern exactly like a failed match. -/
def amountLoop : List Regex → String → Option ℚ
  | [], _ => none
  | p :: rest, text =>
    match searchG1 p text.data with
    | some g =>
      match decimalParse (stripCommas g) with
      | some v => some v
      | none => amountLoop rest text
    | none => amountLoop rest text

/-- `extract_amount` from `src/app/parse_xml.py`. -/
def extract_amount (text : String) : Option ℚ := amountLoop amount_patterns text

/-- The `for pattern in fee_patterns` loop of `extract_fee`: no comma
stripping, and a default of `Decimal("0.0")` when no pattern applies. -/
def feeLoop : List Regex → String → ℚ
  | [], _ => 0
  | p :: rest, text =>
    match searchG1 p text.data with
    | some g =>
      match decimalParse g with
      | some v => v
      | none => feeLoop rest text
    | none => feeLoop rest text

/-- `extract_fee` from `src/app/parse_xml.py`. -/
def extract_fee (text : String) : ℚ := feeLoop fee_patterns text

/-- The `for pattern in balance_patterns` loop of `extract_balance`. -/
def balanceLoop : List Regex → String → Option ℚ
  | [], _ => none
  | p :: rest, text =>
    match searchG1 p text.data with
    | some g =>
      match decimalParse (stripCommas g) with
      | some v => some v
      | none => balanceLoop rest text
    | none => balanceLoop rest text

/-- `extract_balance` from `src/app/parse_xml.py`. -/
def extract_balance (text : String) : Option ℚ := balanceLoop balance_patterns text

/-- The `for pattern in patterns` loop of `extract_transaction_id`: the
captured digits are returned as a string, with no numeric conversion. -/
def tidLoop : List Regex → String → Option String
  | [], _ => none
  | p :: rest, text =>
    match searchG1 p text.data with
    | some g => some (String.mk g)
    | none => tidLoop rest text

/-- `extract_transaction_id` from `src/app/parse_xml.py`. -/
def extract_transaction_id (text : String) : Option String := tidLoop tid_patterns text

/-- Sender pattern `received.*?from\s+([A-Za-z\s]+?)\s+\(` from the
`sender_patterns` list of `extract_names`. -/
def snd_p1 : Regex :=
  rseq [rlitCI "received", .lstar (.cls .anyNoLF), rlitCI "from", rplus rws,
        .grp (rlazyplus (.cls .alphaSpace)), rplus rws, rlit "("]

/-- Sender pattern `by\s+([A-Za-z\s]+?)\s+on`. -/
def snd_p2 : Regex :=
  rseq [rlitCI "by", rplus rws, .grp (rlazyplus (.cls .alphaSpace)), rplus rws, rlitCI "on"]

/-- Sender pattern `from\s+([A-Za-z\s]+?)\s+\(`. -/
def snd_p3 : Regex :=
  rseq [rlitCI "from", rplus rws, .grp (rlazyplus (.cls .alphaSpace)), rplus rws, rlit "("]

/-- The ordered `sender_patterns` list of `extract_names`, as in the source. -/
def sender_patterns : List Regex := [snd_p1, snd_p2, snd_p3]

/-- First-match loop over the sender patterns, returning the captured name. -/
def senderLoop : List Regex → String → Option String
  | [], _ => none
  | p :: rest, text =>
    match searchG1 p text.data with
    | some g => some (String.mk g)
    | none => senderLoop rest text

/-- Modelled from the spec: `src/app/parse_xml.py` is truncated inside
`extract_names`, so the matching loop that applies `sender_patterns` is
missing; per the spec (section 4.1, name extractors return the first
context-dependent match or nothing), we apply the source's sender pattern
list in order — case-insensitively, like every other extractor search in
the file — and return the first capture. -/
def extract_sender (text : String) : Option String := senderLoop sender_patterns text

/-- Parsed `strptime` fields before `datetime` construction. -/
structure DateParts where
  year : Nat
  month : Nat
  day : Nat
  hour : Nat
  minute : Nat
  second : Nat
deriving DecidableEq

/-- A `strptime` directive: the alternatives it can consume from the
input, in the preference order of CPython's compiled pattern, each with
the numeric value it binds. -/
def PTok := List Char → List (Nat × List Char)

/-- A literal character in the format string. -/
def tokLit (c : Char) : PTok := fun s =>
  match s with
  | a :: r => if a = c then [(0, r)] else []
  | _ => []

/-- A single-character numeric alternative. -/
def tok1 (ok : Char → Bool) : PTok := fun s =>
  match s with
  | a :: r => if ok a then [(digitsVal [a], r)] else []
  | _ => []

/-- A two-character numeric alternative. -/
def tok2 (ok1 ok2 : Char → Bool) : PTok := fun s =>
  match s with
  | a :: b :: r => if ok1 a && ok2 b then [(digitsVal [a, b], r)] else []
  | _ => []

/-- Ordered alternation of directive alternatives. -/
def tokOr (f g : PTok) : PTok := fun s => f s ++ g s

/-- Character range test. -/
def inRg (lo hi : Char) (c : Char) : Bool := lo ≤ c && c ≤ hi

/-- `%Y`: exactly four digits (CPython compiles it to `\d\d\d\d`). -/
def tok_Y : PTok := fun s =>
  match s with
  | a :: b :: c :: d :: r =>
    if a.isDigit && b.isDigit && c.isDigit && d.isDigit then
      [(digitsVal [a, b, c, d], r)]
    else []
  | _ => []

/-- `%m`: CPython alternation `1[0-2]|0[1-9]|[1-9]`. -/
def tok_m : PTok :=
  tokOr (tok2 (· = '1') (inRg '0' '2'))
    (tokOr (tok2 (· = '0') (inRg '1' '9')) (tok1 (inRg '1' '9')))

/-- The space-padded day alternative ` [1-9]`: a space then a nonzero
digit, bound to the digit's value (CPython passes the captured " d" to
`int`, which ignores the leading space). -/
def tokSpD : PTok := fun s =>
  match s with
  | a :: b :: r => if a = ' ' && inRg '1' '9' b then [(digitsVal [b], r)] else []
  | _ => []

/-- `%d`: CPython alternation `3[0-1]|[1-2]\d|0[1-9]|[1-9]| [1-9]` (the
last alternative is the space-padded day). -/
def tok_d : PTok :=
  tokOr (tok2 (· = '3') (inRg '0' '1'))
    (tokOr (tok2 (inRg '1' '2') Char.isDigit)
      (tokOr (tok2 (· = '0') (inRg '1' '9'))
        (tokOr (tok1 (inRg '1' '9')) tokSpD)))

/-- `%H`: CPython alternation `2[0-3]|[0-1]\d|\d`. -/
def tok_H : PTok :=
  tokOr (tok2 (· = '2') (inRg '0' '3'))
    (tokOr (tok2 (inRg '0' '1') Char.isDigit) (tok1 Char.isDigit))

/-- `%I`: CPython alternation `1[0-2]|0[1-9]|[1-9]`. -/
def tok_I : PTok := tok_m

/-- `%M`: CPython alternation `[0-5]\d|\d`. -/
def tok_M : PTok := tokOr (tok2 (inRg '0' '5') Char.isDigit) (tok1 Char.isDigit)

/-- `%S`: CPython alternation `6[0-1]|[0-5]\d|\d`. -/
def tok_S : PTok :=
  tokOr (tok2 (· = '6') (inRg '0' '1'))
    (tokOr (tok2 (inRg '0' '5') Char.isDigit) (tok1 Char.isDigit))

/-- Case-insensitive literal-prefix test for month and AM/PM names
(the whole strptime pattern is compiled with IGNORECASE). -/
def ciPref : List Char → List Char → Option (List Char)
  | [], s => some s
  | _ :: _, [] => none
  | a :: as, b :: bs => if a.toLower = b.toLower then ciPref as bs else none

/-- The abbreviated month names of the C locale, in CPython order. -/
def monthAbbrevs : List String :=
  ["Jan", "Feb", "Mar", "Apr", "May", "Jun", "Jul", "Aug", "Sep", "Oct", "Nov", "Dec"]

/-- `%b`: one of the abbreviated month names, case-insensitive, bound to
its one-based index. -/
def tok_b : PTok := fun s =>
  monthAbbrevs.enum.flatMap (fun p =>
    match ciPref p.2.data s with
    | some r => [(p.1 + 1, r)]
    | none => [])

/-- `%p`: `AM` (value 0) or `PM` (value 1), case-insensitive. -/
def tok_p : PTok := fun s =>
  (match ciPref ['A', 'M'] s with
   | some r => [(0, r)]
   | none => []) ++
  (match ciPref ['P', 'M'] s with
   | some r => [(1, r)]
   | none => [])

/-- Whitespace in the format string: CPython strptime compiles any
whitespace run of the format to `\s+`, which matches one or more input
whitespace characters, greedily (longest run preferred). -/
def tok_wsp : PTok := fun s =>
  (List.range (s.takeWhile pySpace).length).map
    (fun i => (0, s.drop ((s.takeWhile pySpace).length - i)))

/-- Gregorian leap-year test, as `datetime` uses. -/
def isLeap (y : Nat) : Bool := (y % 4 = 0 && y % 100 ≠ 0) || y % 400 = 0

/-- Days in a month, as `datetime` validates. -/
def daysInMonth (y m : Nat) : Nat :=
  if m = 2 then (if isLeap y then 29 else 28)
  else if m = 4 || m = 6 || m = 9 || m = 11 then 30
  else 31

/-- The `datetime(...)` constructor's validation: strptime hands its bound
fields to `datetime`, which raises `ValueError` outside these bounds
(notably day-of-month against the calendar, and seconds 60 and 61, which
the `%S` directive itself admits). -/
def validParts (p : DateParts) : Bool :=
  1 ≤ p.year && p.year ≤ 9999 && 1 ≤ p.month && p.month ≤ 12 &&
  1 ≤ p.day && p.day ≤ daysInMonth p.year p.month &&
  p.hour ≤ 23 && p.minute ≤ 59 && p.second ≤ 59

/-- All prefix matches of the format `%Y-%m-%d %H:%M:%S` against the
input, in regex preference order; the format's space is compiled to
`\s+`. -/
def fmt1cands (s : List Char) : List (DateParts × List Char) :=
  (tok_Y s).flatMap (fun py =>
  (tokLit '-' py.2).flatMap (fun q1 =>
  (tok_m q1.2).flatMap (fun pm =>
  (tokLit '-' pm.2).flatMap (fun q2 =>
  (tok_d q2.2).flatMap (fun pd =>
  (tok_wsp pd.2).flatMap (fun q3 =>
  (tok_H q3.2).flatMap (fun ph =>
  (tokLit ':' ph.2).flatMap (fun q4 =>
  (tok_M q4.2).flatMap (fun pmi =>
  (tokLit ':' pmi.2).flatMap (fun q5 =>
  (tok_S q5.2).map (fun ps =>
    (⟨py.1, pm.1, pd.1, ph.1, pmi.1, ps.1⟩, ps.2))))))))))))

/-- `datetime.strptime(s, "%Y-%m-%d %H:%M:%S")`: the preferred regex match
must consume the whole string (else "unconverted data remains") and pass
`datetime` validation; any failure raises `ValueError`, modelled as
`none`. -/
def strptime1 (s : List Char) : Option DateParts :=
  match fmt1cands s with
  | [] => none
  | (v, rest) :: _ => if rest.isEmpty && validParts v then some v else none

/-- All prefix matches of the format `%d %b %Y %I:%M:%S %p`; each format
space is compiled to `\s+`. -/
def fmt2cands (s : List Char) : List ((Nat × Nat × Nat × Nat × Nat × Nat × Nat) × List Char) :=
  (tok_d s).flatMap (fun pd =>
  (tok_wsp pd.2).flatMap (fun q1 =>
  (tok_b q1.2).flatMap (fun pb =>
  (tok_wsp pb.2).flatMap (fun q2 =>
  (tok_Y q2.2).flatMap (fun py =>
  (tok_wsp py.2).flatMap (fun q3 =>
  (tok_I q3.2).flatMap (fun ph =>
  (tokLit ':' ph.2).flatMap (fun q4 =>
  (tok_M q4.2).flatMap (fun pmi =>
  (tokLit ':' pmi.2).flatMap (fun q5 =>
  (tok_S q5.2).flatMap (fun ps =>
  (tok_wsp ps.2).flatMap (fun q6 =>
  (tok_p q6.2).map (fun pp =>
    ((pd.1, pb.1, py.1, ph.1, pmi.1, ps.1, pp.1), pp.2))))))))))))))

/-- CPython's `%I`/`%p` combination: AM maps 12 to 0, PM adds 12 except
to 12 itself. -/
def hour24 (h12 ampm : Nat) : Nat :=
  if ampm = 0 then (if h12 = 12 then 0 else h12)
  else (if h12 = 12 then 12 else h12 + 12)

/-- `datetime.strptime(s, "%d %b %Y %I:%M:%S %p")`. -/
def strptime2 (s : List Char) : Option DateParts :=
  match fmt2cands s with
  | [] => none
  | (v, rest) :: _ =>
    let parts : DateParts := ⟨v.2.2.1, v.2.1, v.1, hour24 v.2.2.2.1 v.2.2.2.2.2.2, v.2.2.2.2.1, v.2.2.2.2.2.1⟩
    if rest.isEmpty && validParts parts then some parts else none

/-- All prefix matches of the format `%Y%m%d%H%M%S` (directives adjacent,
so alternation backtracking across directives matters). -/
def fmt3cands (s : List Char) : List (DateParts × List Char) :=
  (tok_Y s).flatMap (fun py =>
  (tok_m py.2).flatMap (fun pm =>
  (tok_d pm.2).flatMap (fun pd =>
  (tok_H pd.2).flatMap (fun ph =>
  (tok_M ph.2).flatMap (fun pmi =>
  (tok_S pmi.2).map (fun ps =>
    (⟨py.1, pm.1, pd.1, ph.1, pmi.1, ps.1⟩, ps.2)))))))

/-- `datetime.strptime(s, "%Y%m%d%H%M%S")`. -/
def strptime3 (s : List Char) : Option DateParts :=
  match fmt3cands s with
  | [] => none
  | (v, rest) :: _ => if rest.isEmpty && validParts v then some v else none

/-- A resolved timestamp, identified by how `parse_timestamp` produced it:
an epoch-milliseconds conversion via `datetime.fromtimestamp`, a textual
`strptime` parse, or the `datetime.now()` fallback. -/
inductive PyDatetime
  | fromEpochMs (ms : Nat)
  | ofParts (p : DateParts)
  | now
deriving DecidableEq

/-- Python `str.isdigit()` on the ASCII inputs at hand: nonempty and all
decimal digits. -/
def pyIsdigit (s : String) : Bool := !s.isEmpty && s.data.all Char.isDigit

/-- The largest epoch-milliseconds value `datetime.fromtimestamp(ms/1000)`
accepts in the deployment's UTC timezone: 9999-12-31 23:59:59.999; past
`datetime.max` the call raises (`ValueError`/`OverflowError`/`OSError`),
which `parse_timestamp`'s enclosing `except Exception` turns into
`datetime.now()`. -/
def maxEpochMs : Nat := 253402300799999

/-- `parse_timestamp` from `src/app/parse_xml.py`: all-digit strings longer
than 10 characters take the epoch-milliseconds branch (falling to `now` if
`fromtimestamp` raises); otherwise the three date formats are tried in
order, `ValueError` per format meaning "try the next"; if none parses the
current time is returned. -/
def parse_timestamp (s : String) : PyDatetime :=
  if pyIsdigit s && decide (10 < s.length) then
    if digitsVal s.data ≤ maxEpochMs then .fromEpochMs (digitsVal s.data) else .now
  else
    match strptime1 s.data with
    | some p => .ofParts p
    | none =>
      match strptime2 s.data with
      | some p => .ofParts p
      | none =>
        match strptime3 s.data with
        | some p => .ofParts p
        | none => .now

/-- The transaction-type vocabulary, from `TransactionType` in
`src/api/models.py`. -/
inductive TransactionType
  | RECEIVED
  | SENT
  | WITHDRAWAL
  | DEPOSIT
  | PAYMENT
  | AIRTIME
  | BILL_PAYMENT
  | CASH_POWER
  | COMMISSION
  | REFUND
  | SALARY
  | UNKNOWN
deriving DecidableEq

/-- Lower-cased character list of a string. -/
def lowerStr (s : String) : List Char := s.data.map Char.toLower

/-- Whether the first list is a leading segment of the second. -/
def prefOf : List Char → List Char → Bool
  | [], _ => true
  | _ :: _, [] => false
  | a :: as, b :: bs => a = b && prefOf as bs

/-- Whether `needle` occurs contiguously inside the second list. -/
def hasSub (needle : List Char) : List Char → Bool
  | [] => prefOf needle []
  | c :: t => prefOf needle (c :: t) || hasSub needle t

/-- Modelled from the spec: the Transaction Classifier (spec section 4.3)
is absent from `src/` — `parse_xml.py` is truncated before it.  Per the
spec it maps keyword or phrase presence ("received", "payment of",
"withdrawn", "deposit", "airtime", "cash power", "transferred to") to one
enumeration value, checking more specific phrases before generic ones, and
yields `UNKNOWN` when no phrase matches. -/
def classify_transaction_type (text : String) : TransactionType :=
  let t := lowerStr text
  if hasSub "cash power".data t then .CASH_POWER
  else if hasSub "airtime".data t then .AIRTIME
  else if hasSub "withdrawn".data t then .WITHDRAWAL
  else if hasSub "deposit".data t then .DEPOSIT
  else if hasSub "transferred to".data t then .SENT
  else if hasSub "received".data t then .RECEIVED
  else if hasSub "payment".data t then .PAYMENT
  else .UNKNOWN

/-- One raw SMS record, per spec section 3. -/
structure RawMessage where
  address : String
  body : String
  raw_timestamp : String
  readable_date : String
  type : Nat
  service_center : Option String

/-- The structured extraction result, restricted to the fields the claims
under verification mention (spec section 3). -/
structure ExtractedTransaction where
  transaction_type : TransactionType
  amount : Option ℚ
  fee : ℚ
  balance_after : Option ℚ
  transaction_id : Option String
  sender_name : Option String
  transaction_date : PyDatetime
  is_parsed : Bool

/-- Modelled from the spec: the Record Assembler (spec section 4.4) is
absent from `src/` — `parse_xml.py` is truncated before it.  Per the
spec's steps 1-5 it classifies the body, runs each field extractor
independently, resolves the timestamp, and sets
`is_parsed = (transaction_type != UNKNOWN) and (amount is not None)`. -/
def assemble (msg : RawMessage) : ExtractedTransaction :=
  let t := classify_transaction_type msg.body
  let amt := extract_amount msg.body
  { transaction_type := t
    amount := amt
    fee := extract_fee msg.body
    balance_after := extract_balance msg.body
    transaction_id := extract_transaction_id msg.body
    sender_name := extract_sender msg.body
    transaction_date := parse_timestamp msg.raw_timestamp
    is_parsed := decide (t ≠ TransactionType.UNKNOWN) && amt.isSome }

/-- Every value `Decimal` produces from a captured substring is
non-negative: the capture grammar admits no sign. -/
theorem decimalParse_nonneg (cs : List Char) (v : ℚ) (h : decimalParse cs = some v) :
    0 ≤ v := by
  unfold decimalParse at h
  dsimp only at h
  split at h
  · split at h
    · exact absurd h (by simp)
    · injection h with h
      subst h
      positivity
  · split at h
    · injection h with h
      subst h
      positivity
    · exact absurd h (by simp)
  · exact absurd h (by simp)

/-- Any amount the pattern loop returns is non-negative. -/
theorem amountLoop_nonneg (pats : List Regex) (text : String) (v : ℚ)
    (h : amountLoop pats text = some v) : 0 ≤ v := by
  induction pats with
  | nil => exact absurd h (by simp [amountLoop])
  | cons p rest ih =>
    unfold amountLoop at h
    split at h
    · split at h
      · injection h with h
        subst h
        exact decimalParse_nonneg _ _ (by assumption)
      · exact ih h
    · exact ih h

/-- Any balance the pattern loop returns is non-negative. -/
theorem balanceLoop_nonneg (pats : List Regex) (text : String) (v : ℚ)
    (h : balanceLoop pats text = some v) : 0 ≤ v := by
  induction pats with
  | nil => exact absurd h (by simp [balanceLoop])
  | cons p rest ih =>
    unfold balanceLoop at h
    split at h
    · split at h
      · injection h with h
        subst h
        exact decimalParse_nonneg _ _ (by assumption)
      · exact ih h
    · exact ih h

/-- The fee loop's result is non-negative for every input. -/
theorem feeLoop_nonneg (pats : List Regex) (text : String) : 0 ≤ feeLoop pats text := by
  induction pats with
  | nil => simp [feeLoop]
  | cons p rest ih =>
    unfold feeLoop
    split
    · split
      · exact decimalParse_nonneg _ _ (by assumption)
      · exact ih
    · exact ih

/-- When no pattern of the list matches, the fee loop returns its
`Decimal("0.0")` default. -/
theorem feeLoop_default (pats : List Regex) (text : String)
    (h : ∀ p ∈ pats, searchG1 p text.data = none) : feeLoop pats text = 0 := by
  induction pats with
  | nil => simp [feeLoop]
  | cons p rest ih =>
    have hp := h p (List.mem_cons_self p rest)
    unfold feeLoop
    rw [hp]
    exact ih (fun q hq => h q (List.mem_cons_of_mem p hq))

/-- The transaction-id loop returns nothing exactly when no pattern of its
list matches anywhere in the text. -/
theorem tidLoop_none_iff (pats : List Regex) (text : String) :
    tidLoop pats text = none ↔ ∀ p ∈ pats, searchG1 p text.data = none := by
  induction pats with
  | nil => simp [tidLoop]
  | cons p rest ih =>
    unfold tidLoop
    cases hp : searchG1 p text.data with
    | some g =>
      simp only [List.mem_cons]
      constructor
      · intro h
        exact absurd h (by simp)
      · intro h
        exact absurd (h p (Or.inl rfl)) (by simp [hp])
    | none =>
      simp only [List.mem_cons, ih]
      constructor
      · intro h q hq
        cases hq with
        | inl he => exact he ▸ hp
        | inr hm => exact h q hm
      · intro h q hq
        exact h q (Or.inr hq)

/-- C6: `extract_transaction_id` matches its labels case-sensitively, so a
lower-cased label yields no result, and a matched label's digits are
returned verbatim as a string, leading zeros preserved. -/
theorem claim_C6 :
    extract_transaction_id "transaction id: 123" = none ∧
    extract_transaction_id "Transaction Id: 00123" = some "00123" ∧
    extract_transaction_id "Transaction Id: 00123" ≠ some "123" := by
  decide

/-- C9: on a body whose amount is a plain digit run of more than three
digits before "RWF", the comma-grouped first pattern matches a trailing
three-digit suffix of the run, so `extract_amount` returns that suffix's
value: "You have received 25000 RWF" captures "000" and yields 0, not
25000. -/
theorem claim_C9 :
    extract_amount "You have received 25000 RWF" = some 0 ∧
    searchG1 amt_p1 ("You have received 25000 RWF").data = some ['0', '0', '0'] ∧
    (0 : ℚ) ≠ 25000 := by
  decide

/-- C1 counterexample: on "100 RWF payment of 500 RWF" the specific
"payment of" pattern captures 500 and the generic leading pattern captures
100, yet `extract_amount` returns 100 — the specific phrasing does not
win, contradicting the claimed ordering. -/
theorem claim_C1_cex :
    extract_amount "100 RWF payment of 500 RWF" = some 100 ∧
    searchG1 amt_p4 ("100 RWF payment of 500 RWF").data = some ['5', '0', '0'] ∧
    searchG1 amt_p1 ("100 RWF payment of 500 RWF").data = some ['1', '0', '0'] ∧
    decimalParse (stripCommas ['5', '0', '0']) = some 500 ∧
    (100 : ℚ) ≠ 500 := by
  decide

/-- C1 amended: `extract_amount` does return the normalized value captured
by the first pattern in its ordered list that matches and parses, but the
order places the generic patterns before the specific contextual ones
(`amount_patterns` starts with the bare "amount RWF" pattern), so when a
specific and a generic phrasing both match with different numbers, the
generic pattern's (leftmost) number is returned, as on
"100 RWF payment of 500 RWF". -/
theorem claim_C1_amended :
    (∀ p rest text g v, searchG1 p text.data = some g →
        decimalParse (stripCommas g) = some v →
        amountLoop (p :: rest) text = some v) ∧
    amount_patterns = [amt_p1, amt_p2, amt_p3, amt_p4, amt_p5, amt_p6, amt_p7] ∧
    extract_amount "100 RWF payment of 500 RWF" = some 100 ∧
    searchG1 amt_p4 ("100 RWF payment of 500 RWF").data = some ['5', '0', '0'] := by
  refine ⟨?_, rfl, by decide, by decide⟩
  intro p rest text g v h1 h2
  simp only [amountLoop, h1, h2]

/-- C1 amended, witness: the first-match-wins conjunct applied to the
generic pattern on "5 RWF". -/
theorem claim_C1_amended_wit : amountLoop [amt_p1] "5 RWF" = some 5 :=
  claim_C1_amended.1 amt_p1 [] "5 RWF" ['5'] 5 (by decide) (by decide)

/-- C3: each extractor loop treats a pattern whose match fails numeric
parsing exactly like a pattern that does not match — both continue with
the rest of the pattern list — and the loops return plain optional values
(total functions; the transaction-id loop does no numeric parsing). -/
theorem claim_C3 :
    (∀ p rest text, searchG1 p text.data = none →
        amountLoop (p :: rest) text = amountLoop rest text) ∧
    (∀ p rest text g, searchG1 p text.data = some g →
        decimalParse (stripCommas g) = none →
        amountLoop (p :: rest) text = amountLoop rest text) ∧
    (∀ p rest text, searchG1 p text.data = none →
        feeLoop (p :: rest) text = feeLoop rest text) ∧
    (∀ p rest text g, searchG1 p text.data = some g → decimalParse g = none →
        feeLoop (p :: rest) text = feeLoop rest text) ∧
    (∀ p rest text, searchG1 p text.data = none →
        balanceLoop (p :: rest) text = balanceLoop rest text) ∧
    (∀ p rest text g, searchG1 p text.data = some g →
        decimalParse (stripCommas g) = none →
        balanceLoop (p :: rest) text = balanceLoop rest text) ∧
    (∀ p rest text, searchG1 p text.data = none →
        tidLoop (p :: rest) text = tidLoop rest text) := by
  refine ⟨?_, ?_, ?_, ?_, ?_, ?_, ?_⟩
  · intro p rest text h
    simp only [amountLoop, h]
  · intro p rest text g h1 h2
    simp only [amountLoop, h1, h2]
  · intro p rest text h
    simp only [feeLoop, h]
  · intro p rest text g h1 h2
    simp only [feeLoop, h1, h2]
  · intro p rest text h
    simp only [balanceLoop, h]
  · intro p rest text g h1 h2
    simp only [balanceLoop, h1, h2]
  · intro p rest text h
    simp only [tidLoop, h]

/-- C3 witness: each skip conjunct applied at a concrete pattern and text
(a non-matching literal, and a group capture that is not numeric). -/
theorem claim_C3_wit :
    amountLoop [Regex.cls (.lit 'Q')] "z" = amountLoop [] "z" ∧
    amountLoop [Regex.grp (Regex.cls (.lit 'Q'))] "Q" = amountLoop [] "Q" ∧
    feeLoop [Regex.cls (.lit 'Q')] "z" = feeLoop [] "z" ∧
    feeLoop [Regex.grp (Regex.cls (.lit 'Q'))] "Q" = feeLoop [] "Q" ∧
    balanceLoop [Regex.cls (.lit 'Q')] "z" = balanceLoop [] "z" ∧
    balanceLoop [Regex.grp (Regex.cls (.lit 'Q'))] "Q" = balanceLoop [] "Q" ∧
    tidLoop [Regex.cls (.lit 'Q')] "z" = tidLoop [] "z" :=
  ⟨claim_C3.1 _ [] "z" (by decide),
   claim_C3.2.1 _ [] "Q" ['Q'] (by decide) (by decide),
   claim_C3.2.2.1 _ [] "z" (by decide),
   claim_C3.2.2.2.1 _ [] "Q" ['Q'] (by decide) (by decide),
   claim_C3.2.2.2.2.1 _ [] "z" (by decide),
   claim_C3.2.2.2.2.2.1 _ [] "Q" ['Q'] (by decide) (by decide),
   claim_C3.2.2.2.2.2.2 _ [] "z" (by decide)⟩

/-- C4 counterexample: the fee extractor performs no comma stripping and
its patterns admit no comma-grouped digits, so "Fee was: 1,500 RWF" yields
the default 0, not 1500 as the claim requires. -/
theorem claim_C4_cex :
    extract_fee "Fee was: 1,500 RWF" = 0 ∧ (0 : ℚ) ≠ 1500 := by
  decide

/-- C4 amended: the amount and balance extractors strip comma thousands
separators from the matched number before parsing; the fee extractor does
not — its patterns (`\d+` digit runs) never match a comma-grouped number,
so a comma-written fee falls through to the default 0, while the plain
form parses. -/
theorem claim_C4_amended :
    extract_amount "1,600 RWF" = some 1600 ∧
    extract_balance "new balance: 1,500 RWF" = some 1500 ∧
    stripCommas ("1,600").data = ['1', '6', '0', '0'] ∧
    extract_fee "Fee was: 1,500 RWF" = 0 ∧
    extract_fee "Fee was: 1500 RWF" = 1500 ∧
    searchG1 fee_p1 ("Fee was: 1,500 RWF").data = none ∧
    searchG1 fee_p2 ("Fee was: 1,500 RWF").data = none ∧
    searchG1 fee_p3 ("Fee was: 1,500 RWF").data = none := by
  decide

/-- C5: every extracted amount and balance is non-negative, the fee is
non-negative for every input, and the fee is exactly the zero default
whenever no fee pattern matches. -/
theorem claim_C5 :
    (∀ text v, extract_amount text = some v → 0 ≤ v) ∧
    (∀ text v, extract_balance text = some v → 0 ≤ v) ∧
    (∀ text, 0 ≤ extract_fee text) ∧
    (∀ text, (∀ p ∈ fee_patterns, searchG1 p text.data = none) →
        extract_fee text = 0) :=
  ⟨fun text v h => amountLoop_nonneg amount_patterns text v h,
   fun text v h => balanceLoop_nonneg balance_patterns text v h,
   fun text => feeLoop_nonneg fee_patterns text,
   fun text h => feeLoop_default fee_patterns text h⟩

/-- C5 witness: the non-negativity conjuncts applied at concrete
extractions, and the fee default on a body with no fee phrase. -/
theorem claim_C5_wit :
    (0 : ℚ) ≤ 1600 ∧ (0 : ℚ) ≤ 50 ∧ extract_fee "hello" = 0 :=
  ⟨claim_C5.1 "1,600 RWF" 1600 (by decide),
   claim_C5.2.1 "new balance: 50 RWF" 50 (by decide),
   claim_C5.2.2.2 "hello" (by decide)⟩

/-- C2 counterexample: the all-digit 20-character string
"99999999999999999999" is claimed to resolve to an epoch-derived
timestamp, but `datetime.fromtimestamp` raises on it and the enclosing
handler returns the current time instead. -/
theorem claim_C2_cex :
    parse_timestamp "99999999999999999999" = PyDatetime.now ∧
    PyDatetime.now ≠ PyDatetime.fromEpochMs 99999999999999999999 := by
  decide

/-- C2 amended: `parse_timestamp` never raises; an all-digit string longer
than 10 characters is interpreted as epoch milliseconds and converted
whenever the value is within the range `datetime.fromtimestamp` supports,
and falls to the current-time fallback (via the exception handler) beyond
it; otherwise the known textual formats are tried in a fixed order and the
first that parses wins; if none parses the current time is returned.
Scenario D ("1706347200000" resolves to the epoch-derived timestamp) and
Scenario E ("not-a-date" resolves to the fallback) hold as stated. -/
theorem claim_C2_amended :
    (∀ s : String, pyIsdigit s = true → 10 < s.length →
        digitsVal s.data ≤ maxEpochMs →
        parse_timestamp s = PyDatetime.fromEpochMs (digitsVal s.data)) ∧
    (∀ s : String, pyIsdigit s = true → 10 < s.length →
        maxEpochMs < digitsVal s.data → parse_timestamp s = PyDatetime.now) ∧
    (∀ s : String, (pyIsdigit s && decide (10 < s.length)) = false →
        ∀ p, strptime1 s.data = some p →
        parse_timestamp s = PyDatetime.ofParts p) ∧
    (∀ s : String, (pyIsdigit s && decide (10 < s.length)) = false →
        strptime1 s.data = none → ∀ p, strptime2 s.data = some p →
        parse_timestamp s = PyDatetime.ofParts p) ∧
    (∀ s : String, (pyIsdigit s && decide (10 < s.length)) = false →
        strptime1 s.data = none → strptime2 s.data = none →
        ∀ p, strptime3 s.data = some p →
        parse_timestamp s = PyDatetime.ofParts p) ∧
    (∀ s : String, (pyIsdigit s && decide (10 < s.length)) = false →
        strptime1 s.data = none → strptime2 s.data = none →
        strptime3 s.data = none → parse_timestamp s = PyDatetime.now) ∧
    parse_timestamp "1706347200000" = PyDatetime.fromEpochMs 1706347200000 ∧
    parse_timestamp "not-a-date" = PyDatetime.now := by
  refine ⟨?_, ?_, ?_, ?_, ?_, ?_, by decide, by decide⟩
  · intro s h1 h2 h3
    simp [parse_timestamp, h1, h2, h3]
  · intro s h1 h2 h3
    simp [parse_timestamp, h1, h2, not_le.mpr h3]
  · intro s hc p hp
    simp [parse_timestamp, hc, hp]
  · intro s hc h1 p hp
    simp [parse_timestamp, hc, h1, hp]
  · intro s hc h1 h2 p hp
    simp [parse_timestamp, hc, h1, h2, hp]
  · intro s hc h1 h2 h3
    simp [parse_timestamp, hc, h1, h2, h3]

/-- C2 amended, witness: the epoch conjunct at the 13-digit Scenario D
input, the first-format conjunct at dashed datetimes (including a
double-spaced one, since strptime compiles format whitespace to one or
more input whitespace characters), the second-format conjunct at 12-hour
datetimes (including a space-padded day), and the fallback conjunct at
Scenario E's input. -/
theorem claim_C2_amended_wit :
    parse_timestamp "1706347200000" = PyDatetime.fromEpochMs (digitsVal ("1706347200000").data) ∧
    parse_timestamp "2024-01-27 10:00:00" = PyDatetime.ofParts ⟨2024, 1, 27, 10, 0, 0⟩ ∧
    parse_timestamp "2024-01-27  10:00:00" = PyDatetime.ofParts ⟨2024, 1, 27, 10, 0, 0⟩ ∧
    parse_timestamp "27 Jan 2024 10:00:00 PM" = PyDatetime.ofParts ⟨2024, 1, 27, 22, 0, 0⟩ ∧
    parse_timestamp " 5 Jan 2024 1:00:00 AM" = PyDatetime.ofParts ⟨2024, 1, 5, 1, 0, 0⟩ ∧
    parse_timestamp "20241105123045" = PyDatetime.fromEpochMs (digitsVal ("20241105123045").data) ∧
    parse_timestamp "not-a-date" = PyDatetime.now :=
  ⟨claim_C2_amended.1 "1706347200000" (by decide) (by decide) (by decide),
   claim_C2_amended.2.2.1 "2024-01-27 10:00:00" (by decide) ⟨2024, 1, 27, 10, 0, 0⟩ (by decide),
   claim_C2_amended.2.2.1 "2024-01-27  10:00:00" (by decide) ⟨2024, 1, 27, 10, 0, 0⟩ (by decide),
   claim_C2_amended.2.2.2.1 "27 Jan 2024 10:00:00 PM" (by decide) (by decide)
     ⟨2024, 1, 27, 22, 0, 0⟩ (by decide),
   claim_C2_amended.2.2.2.1 " 5 Jan 2024 1:00:00 AM" (by decide) (by decide)
     ⟨2024, 1, 5, 1, 0, 0⟩ (by decide),
   claim_C2_amended.1 "20241105123045" (by decide) (by decide) (by decide),
   claim_C2_amended.2.2.2.2.2.1 "not-a-date" (by decide) (by decide) (by decide) (by decide)⟩

/-- The body of the spec's Scenario A, verbatim. -/
def scenarioABody : String :=
  "You have received 1,600 RWF from Samuel Carter (250788123456) ... Fee was: 0 RWF ... new balance: 50000 RWF ... Financial Transaction Id: 12345"

/-- A raw message carrying the Scenario A body (the other fields are
incidental to the claims about it). -/
def scenarioAMsg : RawMessage :=
  ⟨"M-Money", scenarioABody, "1706347200000", "", 1, none⟩

set_option maxRecDepth 8192 in
/-- C7 counterexample: on the Scenario A body the balance extractor
returns nothing — all four balance patterns require the number directly
after the label to be comma-grouped from its start (at most three digits
before a comma, a dot, or the RWF literal), which "50000" is not — so the
assembled record's `balance_after` is not 50000 as the claim states. -/
theorem claim_C7_cex :
    (assemble scenarioAMsg).balance_after = none ∧
    (assemble scenarioAMsg).balance_after ≠ some 50000 := by
  decide

set_option maxRecDepth 8192 in
/-- C7 amended: on the Scenario A body the engine yields amount 1600,
fee 0, transaction id "12345", sender name "Samuel Carter", transaction
type RECEIVED and a parsed record — but `balance_after` is `None`, not
50000, because no balance pattern matches the plain five-digit number. -/
theorem claim_C7_amended :
    (assemble scenarioAMsg).transaction_type = TransactionType.RECEIVED ∧
    (assemble scenarioAMsg).amount = some 1600 ∧
    (assemble scenarioAMsg).fee = 0 ∧
    (assemble scenarioAMsg).balance_after = none ∧
    (assemble scenarioAMsg).transaction_id = some "12345" ∧
    (assemble scenarioAMsg).sender_name = some "Samuel Carter" ∧
    (assemble scenarioAMsg).is_parsed = true := by
  decide

/-- C8: in every assembled record, an UNKNOWN transaction type forces
`is_parsed = false`, and `is_parsed = true` only when classification
succeeded and an amount was extracted. -/
theorem claim_C8 (msg : RawMessage) :
    ((assemble msg).transaction_type = TransactionType.UNKNOWN →
      (assemble msg).is_parsed = false) ∧
    ((assemble msg).is_parsed = true →
      (assemble msg).transaction_type ≠ TransactionType.UNKNOWN ∧
        (assemble msg).amount ≠ none) := by
  have ht : (assemble msg).transaction_type = classify_transaction_type msg.body := rfl
  have ha : (assemble msg).amount = extract_amount msg.body := rfl
  have hp : (assemble msg).is_parsed =
      (decide (classify_transaction_type msg.body ≠ TransactionType.UNKNOWN) &&
        (extract_amount msg.body).isSome) := rfl
  constructor
  · intro h
    rw [ht] at h
    rw [hp, h]
    simp
  · intro h
    rw [hp, Bool.and_eq_true] at h
    refine ⟨?_, ?_⟩
    · rw [ht]
      exact of_decide_eq_true h.1
    · rw [ha]
      intro hn
      have h2 := h.2
      rw [hn] at h2
      simp at h2

/-- C8 witness: the UNKNOWN conjunct applied to a message with an empty
body, whose classification is UNKNOWN. -/
theorem claim_C8_wit : (assemble ⟨"", "", "x", "", 1, none⟩).is_parsed = false :=
  (claim_C8 ⟨"", "", "x", "", 1, none⟩).1 (by decide)

/-- C10: the bare "Id:" fallback pattern lets any "Id:"-suffixed label
yield a transaction id, as on "Device Id: 42"; and the extractor returns
nothing exactly when no pattern of its list matches the body. -/
theorem claim_C10 :
    extract_transaction_id "Device Id: 42" = some "42" ∧
    (∀ text, extract_transaction_id text = none ↔
      ∀ p ∈ tid_patterns, searchG1 p text.data = none) :=
  ⟨by decide, fun text => tidLoop_none_iff tid_patterns text⟩

/-- C10 witness: the characterization applied to a body matching no
pattern. -/
theorem claim_C10_wit : extract_transaction_id "hello" = none :=
  (claim_C10.2 "hello").mpr (by decide)
